import Mathlib

/-!
Verification of the QR-code generator/encoder application
(`src/QR_code-generator-encoder.py`) against its natural-language
specification.

The application is orchestration glue around two external libraries:
the `qrcode` Python package (QR symbol encoding and rasterization) and
OpenCV (`cv2.QRCodeDetector`, QR detection and decoding).  The glue code
in the repository is embedded faithfully below; the library stages,
whose source is not part of the repository, are treated as black boxes:
where a claim depends on their behaviour we model that behaviour from
the specification (each such definition carries a doc comment starting
`Modelled from the spec:`) or abstract it into an explicit parameter.
-/

namespace QRApp

/-- The four error-correction levels offered by the selectbox
(source lines 88-93); the first character of the selected option is used
to pick the level (lines 108-114). -/
inductive ECLevel
  | L
  | M
  | Q
  | H
deriving DecidableEq, Repr

/-- A QR module grid: `dim` is the number of modules per side, `dark i j`
tells whether the module in column `i`, row `j` is dark.  Produced by the
`qrcode` library from the content and error-correction level. -/
structure Grid where
  dim : Nat
  dark : Nat → Nat → Bool

/-- A raster image: a square pixel buffer of side length `side`; `px x y`
is the colour (a hex string such as "#000000") of the pixel at `(x, y)`.
Pixels are addressed from the top-left corner. -/
structure Img where
  side : Nat
  px : Nat → Nat → String

/-- The encode pipeline's input, assembled by the generate tab of the
shell (source lines 72-100): content text, module pixel size (slider
1-20, line 81), border width in modules (slider 0-10, line 84),
error-correction level, and the two colours. -/
structure EncodeRequest where
  content : String
  moduleSize : Nat
  borderWidth : Nat
  errorCorrectionLevel : ECLevel
  foregroundColor : String
  backgroundColor : String

/-- The parameter ranges the shell's widgets allow (sliders at source
lines 81 and 84; the level and colours are constrained by their types). -/
def validReqB (r : EncodeRequest) : Bool :=
  1 ≤ r.moduleSize && r.moduleSize ≤ 20 && r.borderWidth ≤ 10

/-- A string is printable ASCII when every character lies in the range
32-126. -/
def printableAsciiB (s : String) : Bool :=
  s.data.all fun c => 32 ≤ c.toNat && c.toNat ≤ 126

/-- Python's `str.startswith` on a single pattern: the pattern's
characters are a prefix of the string's characters. -/
def py_startswith (s pat : String) : Bool :=
  pat.data.isPrefixOf s.data

/-- The URL-likeness test of source line 212:
`decoded_data.startswith(('http://', 'https://', 'www.'))` — Python's
`startswith` with a tuple succeeds when any of the three literal
patterns is a prefix. -/
def isURLLike (s : String) : Bool :=
  py_startswith s "http://" || py_startswith s "https://" || py_startswith s "www."

/-- Modelled from the spec: the module count of QR version `v` (glossary
and section 4.1; a version-`v` symbol is a `(17 + 4v)`-module square).
The version selection itself lives in the `qrcode` library, not in the
repository. -/
def gridDimension (v : Nat) : Nat := 17 + 4 * v

/-- Modelled from the spec: the auto-fit search of section 4.1 step 1,
performed inside the `qrcode` library when the glue calls
`qr.make(fit=True)` (source line 124).  Starting from version `v`, with
`fuel` versions left to try, return the first version whose capacity at
the chosen level holds `need` characters, or `none` when none of them
does. -/
def bestFitAux (cap : Nat → Nat) (need : Nat) : Nat → Nat → Option Nat
  | 0, _ => none
  | fuel + 1, v => if need ≤ cap v then some v else bestFitAux cap need fuel (v + 1)

/-- Modelled from the spec: select the smallest QR version in 1..40 whose
capacity at the chosen error-correction level (`cap v` = character
capacity of version `v` at that level) holds `need` characters; `none`
when even version 40 cannot (the overflow failure of section 4.1). -/
def bestFit (cap : Nat → Nat) (need : Nat) : Option Nat :=
  bestFitAux cap need 40 1

/-- The colour of the pixel at `(x, y)` of the rasterized symbol: the
pixel belongs to the module at `(x / boxSize - border, y / boxSize - border)`
when that position lies inside the grid, and to the quiet zone
otherwise. -/
def modColor (g : Grid) (boxSize border : Nat) (fg bg : String) (x y : Nat) : String :=
  if border ≤ x / boxSize ∧ x / boxSize < border + g.dim
      ∧ border ≤ y / boxSize ∧ y / boxSize < border + g.dim then
    (if g.dark (x / boxSize - border) (y / boxSize - border) then fg else bg)
  else bg

/-- Modelled from the spec: the rasterization step of section 4.1
(steps 3-4), performed by `qr.make_image(fill_color=..., back_color=...)`
with the `box_size` and `border` passed to the `QRCode` constructor
(source lines 117-127).  Each module becomes a `boxSize × boxSize` pixel
block in the foreground colour when dark and the background colour when
light, surrounded by `border` modules of background-coloured quiet zone
on all four sides. -/
def make_image (g : Grid) (boxSize border : Nat) (fg bg : String) : Img where
  side := boxSize * (g.dim + 2 * border)
  px := modColor g boxSize border fg bg

/-- The encode pipeline (source lines 117-131): the library turns the
content and error-correction level into a module grid (abstracted as
`fit`, covering `add_data` and `make(fit=True)`), which is rasterized
with the requested module size, border and colours.  The PNG
serialization is lossless, so the image stands for its own bytes. -/
def encodePipeline (fit : String → ECLevel → Grid) (req : EncodeRequest) : Img :=
  make_image (fit req.content req.errorCorrectionLevel)
    req.moduleSize req.borderWidth req.foregroundColor req.backgroundColor

/-- The outcome of a click on the Generate button (source lines 103-137):
either the validation error banner of line 105, or a generated image. -/
inductive GenOutcome
  | validationError
  | generated (img : Img)

/-- The Streamlit session state touched by the generate tab: the fields
`qr_image`, `qr_bytes` and `show_qr` written at source lines 135-137 and
read by the preview pane at lines 143-156.  `qr_bytes` holds the PNG
serialization, modelled by the image itself (the format is lossless). -/
structure SessionState where
  qrImage : Option Img
  qrBytes : Option Img
  showQR : Bool

/-- The session state before anything was generated: none of the three
keys is present (`'show_qr' in st.session_state` is false). -/
def initialState : SessionState :=
  { qrImage := none, qrBytes := none, showQR := false }

/-- The generate-button handler (source lines 103-137): empty content is
rejected with an error banner before the pipeline runs (lines 104-105);
otherwise the pipeline runs and its result is stored into the session
state (lines 135-137). -/
def generateHandler (fit : String → ECLevel → Grid) (req : EncodeRequest)
    (s : SessionState) : GenOutcome × SessionState :=
  if req.content = "" then
    (GenOutcome.validationError, s)
  else
    let img := encodePipeline fit req
    (GenOutcome.generated img,
      { qrImage := some img, qrBytes := some img, showQR := true })

/-- The preview pane (source lines 143-156): when `show_qr` is set in the
session state, the stored `qr_bytes` are rendered and offered for
download; otherwise a placeholder is shown (`none`). -/
def previewPane (s : SessionState) : Option Img :=
  if s.showQR then s.qrBytes else none

/-- What the decode tab reports for one uploaded file:
`found` is the success banner plus decoded text and URL-likeness flag
(source lines 199-213), `notFound` the "No QR code detected" banner
(line 215), `processError` the `except` handler's
"Error processing image: ..." banner (lines 220-221), and `uncaught` an
exception that escapes the tab because it was raised outside the `try`
block. -/
inductive DecodeOutcome
  | found (text : String) (urlLike : Bool)
  | notFound
  | processError (msg : String)
  | uncaught (msg : String)
deriving DecidableEq, Repr

/-- The decode tab's processing column (source lines 176-221), with the
fallible library steps as explicit parameters:

* `openRes` is `Image.open(uploaded_file)` (line 178) — note it runs in
  the first column, BEFORE the `try` block of line 183 — giving a pixel
  image or an exception message;
* `saveRes` is `image.save(tmp_filename)` (line 187), inside the `try`,
  after the temporary file was created at line 185;
* `detectRes img` is `cv2.imread` plus
  `cv2.QRCodeDetector.detectAndDecode` (lines 190-196), returning the
  decoded text (the empty string when no QR code is found) or an
  exception message.

The second component of the result counts the temporary files still on
disk when the invocation returns: the only `os.unlink` is at line 218,
inside the `try`, after the result was displayed. -/
def decodeTab (openRes : Except String Img) (saveRes : Except String Unit)
    (detectRes : Img → Except String String) : DecodeOutcome × Nat :=
  match openRes with
  | Except.error m => (DecodeOutcome.uncaught m, 0)
  | Except.ok img =>
    match saveRes with
    | Except.error m => (DecodeOutcome.processError ("Error processing image: " ++ m), 1)
    | Except.ok _ =>
      match detectRes img with
      | Except.error m => (DecodeOutcome.processError ("Error processing image: " ++ m), 1)
      | Except.ok d =>
        if d = "" then (DecodeOutcome.notFound, 0)
        else (DecodeOutcome.found d (isURLLike d), 0)

/-- The round trip of an encode request through the two pipelines: the
generated image is saved as PNG, re-opened (losslessly, so `openRes`
succeeds with the same image), written to the temporary file, and run
through the detector (abstracted as `detect`, which never raises on a
valid in-memory image). -/
def roundTrip (fit : String → ECLevel → Grid) (detect : Img → String)
    (req : EncodeRequest) : DecodeOutcome × Nat :=
  decodeTab (Except.ok (encodePipeline fit req)) (Except.ok ())
    (fun img => Except.ok (detect img))

/-! Concrete instances used by witnesses and counterexamples. -/

/-- A concrete 21-module (version 1) grid with a checkerboard pattern. -/
def gridT : Grid :=
  { dim := 21, dark := fun i j => decide ((i + j) % 2 = 0) }

/-- A concrete stand-in for the library's grid construction. -/
def fitT : String → ECLevel → Grid := fun _ _ => gridT

/-- A detector stand-in that recovers the payload "TEST123". -/
def detectT : Img → String := fun _ => "TEST123"

/-- A detector stand-in for an image whose QR symbol carries the empty
payload (or no QR symbol at all): `detectAndDecode` returns the empty
string in both situations. -/
def detectEmpty : Img → String := fun _ => ""

/-- The spec's concrete scenario request (section 8): content "TEST123",
module size 10, border 4, level M, black on white. -/
def reqT : EncodeRequest :=
  { content := "TEST123", moduleSize := 10, borderWidth := 4,
    errorCorrectionLevel := ECLevel.M,
    foregroundColor := "#000000", backgroundColor := "#FFFFFF" }

/-- The same request with empty content. -/
def req0 : EncodeRequest :=
  { content := "", moduleSize := 10, borderWidth := 4,
    errorCorrectionLevel := ECLevel.M,
    foregroundColor := "#000000", backgroundColor := "#FFFFFF" }

/-- A concrete solid-white image, containing no QR pattern. -/
def solidImg : Img :=
  { side := 8, px := fun _ _ => "#FFFFFF" }

/-- A toy capacity table: version `v` holds `17 * v` characters (only the
shape matters for witnesses; real tables live in the `qrcode` library). -/
def capT : Nat → Nat := fun v => 17 * v

/-- A session state in which a previous invocation already stored an
image flag. -/
def stateAlt : SessionState :=
  { qrImage := none, qrBytes := none, showQR := true }

/-! ## Helper lemmas -/

/-- Soundness of the auto-fit search: a returned version lies in the
searched window, its capacity suffices, and every smaller searched
version's capacity falls short. -/
theorem bestFitAux_sound (cap : Nat → Nat) (need : Nat) :
    ∀ fuel v r, bestFitAux cap need fuel v = some r →
      v ≤ r ∧ r < v + fuel ∧ need ≤ cap r ∧
        ∀ w, v ≤ w → w < r → cap w < need := by
  intro fuel
  induction fuel with
  | zero => intro v r h; simp [bestFitAux] at h
  | succ n ih =>
    intro v r h
    by_cases hv : need ≤ cap v
    · simp [bestFitAux, hv] at h
      subst h
      exact ⟨Nat.le_refl v, by omega, hv, fun w hw1 hw2 => by omega⟩
    · simp [bestFitAux, hv] at h
      obtain ⟨h1, h2, h3, h4⟩ := ih (v + 1) r h
      refine ⟨by omega, by omega, h3, fun w hw1 hw2 => ?_⟩
      by_cases hwv : w = v
      · subst hwv; omega
      · exact h4 w (by omega) hw2

/-- Completeness of the auto-fit search: when some version in the
searched window has enough capacity, the search succeeds. -/
theorem bestFitAux_complete (cap : Nat → Nat) (need : Nat) :
    ∀ fuel v w, v ≤ w → w < v + fuel → need ≤ cap w →
      (bestFitAux cap need fuel v).isSome = true := by
  intro fuel
  induction fuel with
  | zero => intro v w h1 h2 _; omega
  | succ n ih =>
    intro v w h1 h2 h3
    by_cases hv : need ≤ cap v
    · simp [bestFitAux, hv]
    · have hwv : w ≠ v := fun he => hv (he ▸ h3)
      simp only [bestFitAux, if_neg hv]
      exact ih (v + 1) w (by omega) (by omega) h3

/-- A pixel inside the block of module `(i, j)` gets that module's
colour. -/
theorem modColor_module (g : Grid) (s b : Nat) (fg bg : String)
    (hs : 1 ≤ s) (i j dx dy : Nat)
    (hi : i < g.dim) (hj : j < g.dim) (hdx : dx < s) (hdy : dy < s) :
    modColor g s b fg bg (s * (b + i) + dx) (s * (b + j) + dy)
      = (if g.dark i j then fg else bg) := by
  have hx : (s * (b + i) + dx) / s = b + i := by
    rw [Nat.mul_add_div (by omega), Nat.div_eq_of_lt hdx]
    omega
  have hy : (s * (b + j) + dy) / s = b + j := by
    rw [Nat.mul_add_div (by omega), Nat.div_eq_of_lt hdy]
    omega

  unfold modColor
  rw [hx, hy, if_pos ⟨by omega, by omega, by omega, by omega⟩,
    Nat.add_sub_cancel_left, Nat.add_sub_cancel_left]

/-- A pixel in one of the four border bands gets the background
colour. -/
theorem modColor_quiet (g : Grid) (s b : Nat) (fg bg : String)
    (hs : 1 ≤ s) (x y : Nat)
    (h : x < s * b ∨ s * (b + g.dim) ≤ x
      ∨ y < s * b ∨ s * (b + g.dim) ≤ y) :
    modColor g s b fg bg x y = bg := by
  unfold modColor
  rcases h with h | h | h | h
  · have hxb : x / s < b :=
      Nat.div_lt_of_lt_mul h
    exact if_neg (fun hc => by omega)
  · have hxb : b + g.dim ≤ x / s :=
      (Nat.le_div_iff_mul_le (by omega)).mpr (by rw [Nat.mul_comm (b + g.dim) s]; exact h)
    exact if_neg (fun hc => by omega)
  · have hyb : y / s < b :=
      Nat.div_lt_of_lt_mul h
    exact if_neg (fun hc => by omega)
  · have hyb : b + g.dim ≤ y / s :=
      (Nat.le_div_iff_mul_le (by omega)).mpr (by rw [Nat.mul_comm (b + g.dim) s]; exact h)
    exact if_neg (fun hc => by omega)

/-! ## Claims -/

/-- Claim C1, as stated, is false: the empty string is a printable-ASCII
content of length at most 100 and the parameters are valid, yet the
decode tab classifies its outcome by the truthiness of the decoded
string (source line 199), so the empty payload recovered by the detector
is reported as `notFound`, not as `Found("")`. -/
theorem roundTrip_fails_on_empty_content :
    printableAsciiB "" = true
    ∧ ("" : String).length ≤ 100
    ∧ validReqB req0 = true
    ∧ detectEmpty (encodePipeline fitT req0) = ""
    ∧ roundTrip fitT detectEmpty req0 = (DecodeOutcome.notFound, 0)
    ∧ roundTrip fitT detectEmpty req0 ≠ (DecodeOutcome.found "" (isURLLike ""), 0) :=
  ⟨by decide, by decide, by decide, rfl, by decide, by decide⟩

/-- Claim C1 (amended to nonempty content): for every nonempty content
and valid parameters, when the detector recovers the encoded content
from the rasterized image (the standards-compliance of the two external
libraries, which the spec delegates as black boxes), the decode tab
reports `Found(content)` — with the URL-likeness flag of source line 212
and no temporary file left behind. -/
theorem roundTrip_found_of_nonempty (fit : String → ECLevel → Grid)
    (detect : Img → String) (req : EncodeRequest)
    (hc : req.content ≠ "")
    (hdet : detect (encodePipeline fit req) = req.content) :
    roundTrip fit detect req
      = (DecodeOutcome.found req.content (isURLLike req.content), 0) := by
  simp [roundTrip, decodeTab, hdet, hc]

/-- Claim C1 witness: the spec's concrete scenario — content "TEST123",
module size 10, border 4, level M, black on white — decodes back to
`Found("TEST123")`. -/
theorem roundTrip_found_of_nonempty_witness :
    reqT.content ≠ ""
    ∧ detectT (encodePipeline fitT reqT) = reqT.content
    ∧ roundTrip fitT detectT reqT
        = (DecodeOutcome.found reqT.content (isURLLike reqT.content), 0) :=
  ⟨by decide, rfl, roundTrip_found_of_nonempty fitT detectT reqT (by decide) rfl⟩

/-- Claim C2 is violated by the code: when an exception is raised while
processing the image — at `image.save` (source line 187, after the
temporary file was created at line 185) or inside the OpenCV calls
(lines 190-196) — control jumps to the `except` handler (lines 220-221)
and the `os.unlink` at line 218 is never reached, so one temporary file
survives the invocation; only the success and not-found paths delete
it. -/
theorem tempfile_leaks_on_processing_error :
    decodeTab (Except.ok solidImg) (Except.error "image file is truncated")
        (fun _ => Except.ok "")
      = (DecodeOutcome.processError "Error processing image: image file is truncated", 1)
    ∧ decodeTab (Except.ok solidImg) (Except.ok ())
        (fun _ => Except.error "OpenCV assertion failed")
      = (DecodeOutcome.processError "Error processing image: OpenCV assertion failed", 1)
    ∧ decodeTab (Except.ok solidImg) (Except.ok ()) (fun _ => Except.ok "TEST123")
      = (DecodeOutcome.found "TEST123" false, 0)
    ∧ decodeTab (Except.ok solidImg) (Except.ok ()) (fun _ => Except.ok "")
      = (DecodeOutcome.notFound, 0) :=
  ⟨by decide, by decide, by decide, by decide⟩

/-- Claim C3: when the uploaded bytes parse as a valid raster image and
the detector finds no QR payload in it (`detectAndDecode` returns the
empty string), the decode tab reports `notFound` — no error banner, no
uncaught exception, no decoded text, and the temporary file is
deleted. -/
theorem decode_noQR_notFound (img : Img) (detectRes : Img → Except String String)
    (h : detectRes img = Except.ok "") :
    decodeTab (Except.ok img) (Except.ok ()) detectRes
      = (DecodeOutcome.notFound, 0) := by
  simp [decodeTab, h]

/-- Claim C3 witness: a solid-colour image with no QR pattern yields
`notFound`. -/
theorem decode_noQR_notFound_witness :
    ((fun _ => Except.ok "") : Img → Except String String) solidImg = Except.ok ""
    ∧ decodeTab (Except.ok solidImg) (Except.ok ()) (fun _ => Except.ok "")
        = (DecodeOutcome.notFound, 0) :=
  ⟨rfl, decode_noQR_notFound solidImg (fun _ => Except.ok "") rfl⟩

/-- Claim C4 is violated by the code: `Image.open(uploaded_file)` runs at
source line 178, in the first column, OUTSIDE the `try` block that
starts at line 183, so bytes that cannot be parsed as a supported raster
image raise an exception that the `except` handler of lines 220-221
never sees — the invocation terminates with an uncaught exception
instead of the `ImageDecodeError` banner carrying the cause message. -/
theorem unparsable_bytes_escape_handler :
    decodeTab (Except.error "cannot identify image file") (Except.ok ())
        (fun _ => Except.ok "")
      = (DecodeOutcome.uncaught "cannot identify image file", 0)
    ∧ DecodeOutcome.uncaught "cannot identify image file"
        ≠ DecodeOutcome.processError "Error processing image: cannot identify image file"
    ∧ DecodeOutcome.uncaught "cannot identify image file" ≠ DecodeOutcome.notFound :=
  ⟨by decide, by decide, by decide⟩

/-- Claim C5: with empty content the Generate button shows the
validation-error banner (source lines 104-105), the encode pipeline is
never attempted (the outcome carries no image), and the session state is
returned unchanged. -/
theorem empty_content_rejected (fit : String → ECLevel → Grid)
    (req : EncodeRequest) (s : SessionState) (h : req.content = "") :
    generateHandler fit req s = (GenOutcome.validationError, s) := by
  simp [generateHandler, h]

/-- Claim C5 witness: an empty-content request against a state that
already holds a previous image leaves that state untouched. -/
theorem empty_content_rejected_witness :
    req0.content = ""
    ∧ generateHandler fitT req0 stateAlt = (GenOutcome.validationError, stateAlt) :=
  ⟨rfl, empty_content_rejected fitT req0 stateAlt rfl⟩

/-- Claim C6: the auto-fit policy (the glue passes `version=1` and calls
`make(fit=True)`, source lines 117-124) selects the smallest version in
1..40 whose capacity at the chosen error-correction level holds the
content; content that does not fit version 1 yields a larger version
rather than a failure. -/
theorem bestFit_selects_smallest (cap : Nat → Nat) (need : Nat)
    (h : ∃ w, 1 ≤ w ∧ w ≤ 40 ∧ need ≤ cap w) :
    ∃ v, bestFit cap need = some v ∧ 1 ≤ v ∧ v ≤ 40 ∧ need ≤ cap v
      ∧ (∀ w, 1 ≤ w → w < v → cap w < need)
      ∧ (cap 1 < need → 2 ≤ v) := by
  obtain ⟨w, hw1, hw40, hwcap⟩ := h
  have hsome := bestFitAux_complete cap need 40 1 w hw1 (by omega) hwcap
  obtain ⟨v, hv⟩ := Option.isSome_iff_exists.mp hsome
  obtain ⟨h1, h2, h3, h4⟩ := bestFitAux_sound cap need 40 1 v hv
  have hbf : bestFit cap need = some v := hv
  refine ⟨v, hbf, h1, by omega, h3, h4, fun hc1 => ?_⟩
  by_contra hlt
  push_neg at hlt
  have hv1 : v = 1 := by omega
  rw [hv1] at h3
  omega

/-- Claim C6 witness: with the toy capacity table `17 * v`, 30 characters
do not fit version 1 and the search settles on a larger version. -/
theorem bestFit_selects_smallest_witness :
    (∃ w, 1 ≤ w ∧ w ≤ 40 ∧ 30 ≤ capT w)
    ∧ ∃ v, bestFit capT 30 = some v ∧ 1 ≤ v ∧ v ≤ 40 ∧ 30 ≤ capT v
        ∧ (∀ w, 1 ≤ w → w < v → capT w < 30)
        ∧ (capT 1 < 30 → 2 ≤ v) :=
  ⟨⟨2, by decide⟩, bestFit_selects_smallest capT 30 ⟨2, by decide⟩⟩

/-- Claim C7: the produced image's side length is exactly
`moduleSize * (gridDimension + 2 * borderWidth)` where `gridDimension`
is the module count of the grid the library selected; each module
occupies a `moduleSize × moduleSize` pixel block in its module's colour,
and every pixel of the `borderWidth`-module band on any of the four
sides has the background colour. -/
theorem encode_geometry (fit : String → ECLevel → Grid) (req : EncodeRequest)
    (hs : 1 ≤ req.moduleSize) :
    (encodePipeline fit req).side
        = req.moduleSize * ((fit req.content req.errorCorrectionLevel).dim
            + 2 * req.borderWidth)
    ∧ (∀ i j dx dy,
        i < (fit req.content req.errorCorrectionLevel).dim →
        j < (fit req.content req.errorCorrectionLevel).dim →
        dx < req.moduleSize → dy < req.moduleSize →
        (encodePipeline fit req).px
            (req.moduleSize * (req.borderWidth + i) + dx)
            (req.moduleSize * (req.borderWidth + j) + dy)
          = (if (fit req.content req.errorCorrectionLevel).dark i j
             then req.foregroundColor else req.backgroundColor))
    ∧ (∀ x y,
        (x < req.moduleSize * req.borderWidth
          ∨ req.moduleSize * (req.borderWidth
              + (fit req.content req.errorCorrectionLevel).dim) ≤ x
          ∨ y < req.moduleSize * req.borderWidth
          ∨ req.moduleSize * (req.borderWidth
              + (fit req.content req.errorCorrectionLevel).dim) ≤ y) →
        (encodePipeline fit req).px x y = req.backgroundColor) :=
  ⟨rfl,
   fun i j dx dy hi hj hdx hdy =>
     modColor_module (fit req.content req.errorCorrectionLevel)
       req.moduleSize req.borderWidth req.foregroundColor req.backgroundColor
       hs i j dx dy hi hj hdx hdy,
   fun x y h =>
     modColor_quiet (fit req.content req.errorCorrectionLevel)
       req.moduleSize req.borderWidth req.foregroundColor req.backgroundColor
       hs x y h⟩

/-- Claim C7 witness: the geometry laws at the spec's concrete scenario
request (module size 10, border 4, a 21-module grid). -/
theorem encode_geometry_witness :
    1 ≤ reqT.moduleSize
    ∧ ((encodePipeline fitT reqT).side
          = reqT.moduleSize * ((fitT reqT.content reqT.errorCorrectionLevel).dim
              + 2 * reqT.borderWidth)
      ∧ (∀ i j dx dy,
          i < (fitT reqT.content reqT.errorCorrectionLevel).dim →
          j < (fitT reqT.content reqT.errorCorrectionLevel).dim →
          dx < reqT.moduleSize → dy < reqT.moduleSize →
          (encodePipeline fitT reqT).px
              (reqT.moduleSize * (reqT.borderWidth + i) + dx)
              (reqT.moduleSize * (reqT.borderWidth + j) + dy)
            = (if (fitT reqT.content reqT.errorCorrectionLevel).dark i j
               then reqT.foregroundColor else reqT.backgroundColor))
      ∧ (∀ x y,
          (x < reqT.moduleSize * reqT.borderWidth
            ∨ reqT.moduleSize * (reqT.borderWidth
                + (fitT reqT.content reqT.errorCorrectionLevel).dim) ≤ x
            ∨ y < reqT.moduleSize * reqT.borderWidth
            ∨ reqT.moduleSize * (reqT.borderWidth
                + (fitT reqT.content reqT.errorCorrectionLevel).dim) ≤ y) →
          (encodePipeline fitT reqT).px x y = reqT.backgroundColor)) :=
  ⟨by decide, encode_geometry fitT reqT (by decide)⟩

/-- Claim C8: a nonempty decoded text is reported as found with the
URL-likeness flag, the flag is true exactly when one of the three
literal patterns of source line 212 is a prefix of the text, and the
spec's two examples evaluate as stated. -/
theorem decode_url_flag (img : Img) (d : String) (h : d ≠ "") :
    decodeTab (Except.ok img) (Except.ok ()) (fun _ => Except.ok d)
        = (DecodeOutcome.found d (isURLLike d), 0)
    ∧ (isURLLike d = true ↔
        (py_startswith d "http://" = true ∨ py_startswith d "https://" = true
          ∨ py_startswith d "www." = true))
    ∧ isURLLike "https://example.com" = true
    ∧ isURLLike "hello world" = false := by
  refine ⟨by simp [decodeTab, h], ?_, by decide, by decide⟩
  simp [isURLLike]
  tauto

/-- Claim C8 witness: decoding text "https://example.com" is reported as
found with the URL-likeness flag set. -/
theorem decode_url_flag_witness :
    ("https://example.com" : String) ≠ ""
    ∧ (decodeTab (Except.ok solidImg) (Except.ok ())
          (fun _ => Except.ok "https://example.com")
        = (DecodeOutcome.found "https://example.com" (isURLLike "https://example.com"), 0)
      ∧ (isURLLike "https://example.com" = true ↔
          (py_startswith "https://example.com" "http://" = true
            ∨ py_startswith "https://example.com" "https://" = true
            ∨ py_startswith "https://example.com" "www." = true))
      ∧ isURLLike "https://example.com" = true
      ∧ isURLLike "hello world" = false) :=
  ⟨by decide, decode_url_flag solidImg "https://example.com" (by decide)⟩

/-- Claim C9, as stated, is false: the Generate handler stores its result
into the Streamlit session state (source lines 135-137), which persists
across invocations — starting from the fresh state the flag flips from
false to true, and the preview pass, which rendered nothing before,
afterwards reads and renders the bytes the earlier invocation left
behind (lines 143-156). -/
theorem session_state_persists_counterexample :
    initialState.showQR = false
    ∧ (generateHandler fitT reqT initialState).2.showQR = true
    ∧ previewPane initialState = none
    ∧ (previewPane (generateHandler fitT reqT initialState).2).isSome = true :=
  ⟨rfl, by decide, rfl, by decide⟩

/-- Claim C9 (amended): the image computed by an encode invocation
depends only on its own request — the session state it starts from never
influences the outcome — but the handler does write the result into
session state (`qr_image`, `qr_bytes`, `show_qr`) that persists across
invocations and is read by the later preview/download pass. -/
theorem generate_writes_state_deterministically (fit : String → ECLevel → Grid)
    (req : EncodeRequest) (s t : SessionState) (h : req.content ≠ "") :
    (generateHandler fit req s).1 = (generateHandler fit req t).1
    ∧ (generateHandler fit req s).2.qrImage = some (encodePipeline fit req)
    ∧ (generateHandler fit req s).2.qrBytes = some (encodePipeline fit req)
    ∧ (generateHandler fit req s).2.showQR = true
    ∧ previewPane (generateHandler fit req s).2 = some (encodePipeline fit req) := by
  simp [generateHandler, h, previewPane]

/-- Claim C9 witness: the amended statement at the concrete scenario
request, started from the fresh state and from a state holding a
previous image. -/
theorem generate_writes_state_deterministically_witness :
    reqT.content ≠ ""
    ∧ ((generateHandler fitT reqT initialState).1
          = (generateHandler fitT reqT stateAlt).1
      ∧ (generateHandler fitT reqT initialState).2.qrImage
          = some (encodePipeline fitT reqT)
      ∧ (generateHandler fitT reqT initialState).2.qrBytes
          = some (encodePipeline fitT reqT)
      ∧ (generateHandler fitT reqT initialState).2.showQR = true
      ∧ previewPane (generateHandler fitT reqT initialState).2
          = some (encodePipeline fitT reqT)) :=
  ⟨by decide,
   generate_writes_state_deterministically fitT reqT initialState stateAlt (by decide)⟩

/-- Claim C10: the decode tab classifies its outcome by the truthiness of
the decoded string (`if decoded_data:`, source line 199), so the outcome
is `notFound` exactly when the detector's string is empty — in
particular a QR symbol carrying the empty payload is reported as
`notFound`, indistinguishable from an image containing no QR code at
all. -/
theorem decode_truthiness_empty_payload (img : Img) (d : String) :
    ((decodeTab (Except.ok img) (Except.ok ()) (fun _ => Except.ok d)).1
        = DecodeOutcome.notFound ↔ d = "")
    ∧ decodeTab (Except.ok img) (Except.ok ()) (fun _ => Except.ok "")
        = (DecodeOutcome.notFound, 0) := by
  constructor
  · by_cases hd : d = ""
    · subst hd; simp [decodeTab]
    · simp [decodeTab, hd]
  · simp [decodeTab]

/-- Claim C10 witness: the classification at the empty decoded string. -/
theorem decode_truthiness_empty_payload_witness :
    (((decodeTab (Except.ok solidImg) (Except.ok ())
          (fun _ => Except.ok "")).1 = DecodeOutcome.notFound)
        ↔ ("" : String) = "")
    ∧ decodeTab (Except.ok solidImg) (Except.ok ()) (fun _ => Except.ok "")
        = (DecodeOutcome.notFound, 0) :=
  decode_truthiness_empty_payload solidImg ""

end QRApp
